import Mathlib

/-!
Verification of the test-harness report pipeline of `5_tests/run_tests.py`
(with `5_tests/test_framework.py` and `5_tests/data_integrity_tests.py`):
a shallow embedding of the extractor, runner, aggregator and reporter,
together with theorems settling the specified properties.

Conventions of the embedding:
* Python strings are Lean `String`s; the regex scans work on `List Char`.
* The Python regex character classes `\w` and `\s` are modelled on their
  ASCII fragment (`Char.isAlphanum`, underscore; the six ASCII whitespace
  characters), which is what all the status markers and tests exercise.
* Filesystem and subprocess behaviour is passed in explicitly: existence
  probes become `String → Bool` parameters, `subprocess.run` outcomes and
  raised exceptions become fields of an environment record, and the file
  operations a function performs are returned as an explicit trace.
* A Python function that may raise an exception to its caller is embedded
  as a function into `Except String _`; one that cannot is embedded as a
  total function.
-/

/-- ASCII fragment of Python's regex class `\w`: alphanumerics and underscore. -/
def isWordChar (c : Char) : Bool :=
  c.isAlphanum || c = '_'

/-- Python's regex class `\s` / `str.strip` whitespace (ASCII fragment):
space, tab, newline, carriage return, form feed, vertical tab. -/
def isPySpace (c : Char) : Bool :=
  c = ' ' || c = '\t' || c = '\n' || c = '\r' || c = '\x0b' || c = '\x0c'

/-- Characters matched by the name group `[\w\s\-]` of the extraction
pattern in `extract_test_results`. -/
def isNameChar (c : Char) : Bool :=
  isWordChar c || isPySpace c || c = '-'

/-- ASCII uppercase letter, the class `[A-Z]` of the notes-context pattern. -/
def isUpperAZ (c : Char) : Bool :=
  'A' ≤ c && c ≤ 'Z'

/-- Python `str.strip()`: remove leading and trailing whitespace. -/
def pyStrip (l : List Char) : List Char :=
  ((l.dropWhile isPySpace).reverse.dropWhile isPySpace).reverse

/-- One extracted test result, the dict
`{"test_category": _, "test_name": _, "result": _, "notes": _}`
built by `run_tests.py`. -/
structure ResultRecord where
  test_category : String
  test_name : String
  result : String
  notes : String
deriving DecidableEq

/-- The status alternation of the pattern
`([\w\s\-]+):\s+(PASS|FAIL|WARNING|PARTIAL|INCONCLUSIVE)` in
`extract_test_results` (run_tests.py line 142), in alternation order.
`ERROR` is absent. -/
def statusTokens : List String :=
  ["PASS", "FAIL", "WARNING", "PARTIAL", "INCONCLUSIVE"]

/-- The six status tokens the specification enumerates. -/
def specStatusTokens : List String :=
  ["PASS", "FAIL", "WARNING", "PARTIAL", "INCONCLUSIVE", "ERROR"]

/-!
### The marker pattern of `extract_test_results`

`re.finditer(r"([\w\s\-]+):\s+(PASS|FAIL|WARNING|PARTIAL|INCONCLUSIVE)", text)`.

A match attempt at a position: the greedy group `[\w\s\-]+` takes the
maximal run of name characters (backtracking it cannot help, since the
following `:` is not a name character), the next character must be `:`,
`\s+` takes the maximal whitespace run (backtracking it cannot help, since
every status token starts with a letter), and the alternation tries the
five tokens in order. `finditer` yields the leftmost match, then resumes
scanning right after it.
-/

/-- A single match attempt of the marker pattern at the head of `cs`.
Returns the raw name group, the matched status token, and the suffix
after the match. -/
def tryMarker (cs : List Char) : Option (List Char × String × List Char) :=
  if (cs.takeWhile isNameChar).isEmpty then none
  else
    match cs.dropWhile isNameChar with
    | ':' :: afterColon =>
      if (afterColon.takeWhile isPySpace).isEmpty then none
      else
        match statusTokens.find? (fun t => t.data.isPrefixOf (afterColon.dropWhile isPySpace)) with
        | some t => some (cs.takeWhile isNameChar, t, (afterColon.dropWhile isPySpace).drop t.length)
        | none => none
    | _ => none

/-!
### The notes-context pattern

For each matched name, `extract_test_results` runs
`re.search(rf"{re.escape(test_name)}[^\n]*\n\s+(.+?)(?:\n\n|\n[A-Z])", text, re.DOTALL)`:
the escaped name literally, the rest of its line, a newline, then a
greedy `\s+`, a lazy `(.+?)` (DOTALL: any characters), terminated by a
blank line or a line starting with an ASCII capital.
-/

/-- Terminator `(?:\n\n|\n[A-Z])` of the notes-context pattern. -/
def isCtxTerm (l : List Char) : Bool :=
  match l with
  | '\n' :: '\n' :: _ => true
  | '\n' :: c :: _ => isUpperAZ c
  | _ => false

/-- Lazy `(.+?)` before the context terminator: the shortest nonempty
prefix whose remainder starts with the terminator. -/
def ctxLazyDot : List Char → Option (List Char)
  | [] => none
  | c :: rest =>
    if isCtxTerm rest then some [c]
    else
      match ctxLazyDot rest with
      | some g => some (c :: g)
      | none => none

/-- Greedy `\s+` with backtracking: try whitespace-run lengths from the
maximal one down to 1, feeding the rest to the lazy group. -/
def ctxTryWs (u : List Char) : Nat → Option (List Char)
  | 0 => none
  | Nat.succ s =>
    match ctxLazyDot (u.drop (Nat.succ s)) with
    | some g => some g
    | none => ctxTryWs u s

/-- One match attempt of the notes-context pattern at the head of `cs`:
the literal name, `[^\n]*\n`, then `\s+(.+?)` up to the terminator.
Returns the captured group. -/
def ctxMatchAt (test_name : List Char) (cs : List Char) : Option (List Char) :=
  if test_name.isPrefixOf cs then
    match (cs.drop test_name.length).dropWhile (fun c => c ≠ '\n') with
    | '\n' :: u => ctxTryWs u (u.takeWhile isPySpace).length
    | _ => none
  else none

/-- `re.search` of the notes-context pattern: leftmost successful match
attempt over all start positions. -/
def ctxSearch (test_name : List Char) : List Char → Option (List Char)
  | [] => ctxMatchAt test_name []
  | c :: rest =>
    match ctxMatchAt test_name (c :: rest) with
    | some g => some g
    | none => ctxSearch test_name rest

/-- The notes attached to a matched test name: the stripped context group
when the context search succeeds, `""` otherwise. -/
def notesFor (full : List Char) (test_name : List Char) : List Char :=
  match ctxSearch test_name full with
  | some g => pyStrip g
  | none => []

/-- The `finditer` scan of `extract_test_results`, with explicit fuel
(one unit per scanned position; `full` is the whole text, over which the
notes search runs). -/
def scanFuel (full : List Char) : Nat → List Char → List ResultRecord
  | 0, _ => []
  | _ + 1, [] => []
  | Nat.succ f, c :: rest =>
    match tryMarker (c :: rest) with
    | some (name, t, remaining) =>
      { test_category := "Data Integrity",
        test_name := String.mk (pyStrip name),
        result := t,
        notes := String.mk (notesFor full (pyStrip name)) } :: scanFuel full f remaining
    | none => scanFuel full f rest

/-- `extract_test_results` (run_tests.py lines 137-162): scan the output
text for `<name>: <STATUS>` markers and build one record per match. -/
def extract_test_results (output_text : String) : List ResultRecord :=
  scanFuel output_text.data (output_text.data.length + 1) output_text.data

/-!
### The edge-case pattern of `run_stata_test`

For scripts whose path contains `edge_case_tests.do`, `run_stata_test`
scans stdout with
`re.finditer(r"(\w+[\s\w]*?):\s+(PASS|FAIL|ERROR|WARNING|INCONCLUSIVE)\s*(.+?)(?=\n\n|\Z)", stdout, re.DOTALL)`:
a name starting with a word character followed lazily by word/space
characters up to the first reachable colon, the status alternation (this
one includes `ERROR` and omits `PARTIAL`), greedy `\s*`, and a lazy
`(.+?)` up to a lookahead at a blank line or end of input. -/

/-- The status alternation of the edge-case pattern, in alternation order. -/
def edgeTokens : List String :=
  ["PASS", "FAIL", "ERROR", "WARNING", "INCONCLUSIVE"]

/-- The lazy name group `\w+[\s\w]*?` up to `:`: collect word/space
characters until the first colon (which the class cannot consume), fail
on any other character. `acc` holds the collected name reversed. -/
def splitAtColon (acc : List Char) : List Char → Option (List Char × List Char)
  | [] => none
  | c :: rest =>
    if c = ':' then some (acc.reverse, rest)
    else if isWordChar c || isPySpace c then splitAtColon (c :: acc) rest
    else none

/-- Lookahead terminator `(?=\n\n|\Z)` of the edge-case pattern. -/
def isEdgeTerm (l : List Char) : Bool :=
  match l with
  | [] => true
  | '\n' :: '\n' :: _ => true
  | _ => false

/-- Lazy `(.+?)` before the edge terminator: the shortest nonempty prefix
whose remainder satisfies the lookahead; returns the group and the
remainder (the lookahead consumes nothing). -/
def lazyDotToTerm : List Char → Option (List Char × List Char)
  | [] => none
  | c :: rest =>
    if isEdgeTerm rest then some ([c], rest)
    else
      match lazyDotToTerm rest with
      | some (g, r) => some (c :: g, r)
      | none => none

/-- Greedy `\s*` with backtracking: try whitespace-run lengths from the
maximal one down to 0, feeding the rest to the lazy group. -/
def edgeTryWs (u : List Char) : Nat → Option (List Char × List Char)
  | 0 => lazyDotToTerm u
  | Nat.succ s =>
    match lazyDotToTerm (u.drop (Nat.succ s)) with
    | some gr => some gr
    | none => edgeTryWs u s

/-- A single match attempt of the edge-case pattern at the head of `cs`.
Returns the raw name group, the token, the notes group, and the suffix
after the match. -/
def tryEdgeMarker (cs : List Char) : Option (List Char × String × List Char × List Char) :=
  match cs with
  | [] => none
  | c :: rest =>
    if isWordChar c then
      match splitAtColon [c] rest with
      | some (name, afterColon) =>
        if (afterColon.takeWhile isPySpace).isEmpty then none
        else
          match edgeTokens.find? (fun t => t.data.isPrefixOf (afterColon.dropWhile isPySpace)) with
          | some t =>
            let afterTok := (afterColon.dropWhile isPySpace).drop t.length
            match edgeTryWs afterTok (afterTok.takeWhile isPySpace).length with
            | some (g, rem) => some (name, t, g, rem)
            | none => none
          | none => none
      | none => none
    else none

/-- The `finditer` scan of the edge-case pattern, with explicit fuel. -/
def edgeScanFuel : Nat → List Char → List ResultRecord
  | 0, _ => []
  | _ + 1, [] => []
  | Nat.succ f, c :: rest =>
    match tryEdgeMarker (c :: rest) with
    | some (name, t, g, rem) =>
      { test_category := "Edge Cases",
        test_name := String.mk (pyStrip name),
        result := t,
        notes := String.mk (pyStrip g) } :: edgeScanFuel f rem
    | none => edgeScanFuel f rest

/-- The structured-result extraction of `run_stata_test` (lines 233-246):
applied only when the script path contains `edge_case_tests.do`. -/
def edge_case_extract (stdout : String) : List ResultRecord :=
  edgeScanFuel (stdout.data.length + 1) stdout.data

/-!
### Paths and subprocess calls
-/

/-- `str.startswith`, by character list (kernel-reducible). -/
def strStartsWith (s p : String) : Bool :=
  p.data.isPrefixOf s.data

/-- `str.endswith`, by character list (kernel-reducible). -/
def strEndsWith (s p : String) : Bool :=
  p.data.reverse.isPrefixOf s.data.reverse

/-- POSIX `os.path.join` for two components. -/
def os_path_join (a b : String) : String :=
  if strStartsWith b "/" then b
  else if a.data.isEmpty || strEndsWith a "/" then a ++ b
  else a ++ "/" ++ b

/-- Windows `os.path.join` for two components. -/
def nt_path_join (a b : String) : String :=
  if strEndsWith a "\\" || strEndsWith a "/" || a.data.isEmpty then a ++ b
  else a ++ "\\" ++ b

/-- Python `str.strip(ch)`: remove leading and trailing occurrences of `ch`. -/
def pyStripChar (ch : Char) (s : String) : String :=
  String.mk (((s.data.dropWhile (· = ch)).reverse.dropWhile (· = ch)).reverse)

/-- The argument surface of one `subprocess.run` invocation, with the
keyword arguments the harness passes; parameters left at their defaults
(`timeout=None` in particular) appear with their default values. -/
structure SubprocessCall where
  args : List String
  capture_output : Bool
  text : Bool
  check : Bool
  timeout : Option Nat
deriving DecidableEq

/-- The `subprocess.run` call of `run_python_test` (lines 168-173):
`[sys.executable, script_path, "--root", root_dir]`, capture_output,
text, check=False, and no timeout. -/
def run_python_test_call (python_executable script_path root_dir : String) : SubprocessCall :=
  { args := [python_executable, script_path, "--root", root_dir],
    capture_output := true, text := true, check := false, timeout := none }

/-- `cmd_parts` of `run_stata_test` (lines 206-210): strip the quotes of
a quoted Windows path, else use the command as is. -/
def stata_cmd_parts (stata_cmd temp_script : String) : List String :=
  if strStartsWith stata_cmd "\"" && strEndsWith stata_cmd "\"" then
    [pyStripChar '"' stata_cmd, "-b", "do", temp_script]
  else
    [stata_cmd, "-b", "do", temp_script]

/-- The `subprocess.run` call of `run_stata_test` (lines 212-217):
capture_output, text, check=False, and no timeout. -/
def run_stata_test_call (stata_cmd temp_script : String) : SubprocessCall :=
  { args := stata_cmd_parts stata_cmd temp_script,
    capture_output := true, text := true, check := false, timeout := none }

/-!
### `determine_stata_command` (run_tests.py lines 54-115)

The filesystem and the PATH probes are passed in as an environment; a
`which`/`where` probe that raises is caught by the bare `except: pass`
and treated like a nonzero return code, so a single boolean per command
captures the probe's outcome.
-/

/-- The system state `determine_stata_command` consults. -/
structure SysEnv where
  username : String
  osIsWindows : Bool
  programFiles : String
  pathExists : String → Bool
  cmdFound : String → Bool

/-- The user-specific command table (lines 62-65). -/
def user_stata_commands : List (String × String) :=
  [("jelkeclarysse", "stata-mp"),
   ("ugurdiktas", "/Applications/Stata/StataBE.app/Contents/MacOS/stataBE")]

/-- The probed Mac installation paths (lines 72-77). -/
def mac_specific_paths : List String :=
  ["/Applications/Stata/StataBE.app/Contents/MacOS/stataBE",
   "/Applications/Stata/StataSE.app/Contents/MacOS/stataSE",
   "/Applications/Stata/StataMP.app/Contents/MacOS/stataMP",
   "/Applications/Stata/Stata.app/Contents/MacOS/stata"]

/-- The PATH-probed command names (line 84). -/
def possible_commands : List String :=
  ["stata", "stata-se", "stata-mp", "stata-be", "StataMP-64", "StataMP",
   "StataSE-64", "StataSE", "StataBE"]

/-- The probed Windows installation paths (lines 88-93). -/
def windows_stata_paths (programFiles : String) : List String :=
  (["StataSE-64", "StataMP-64", "Stata-64", "StataBE-64"].map
    (fun cmd => nt_path_join (nt_path_join programFiles "Stata18") (cmd ++ ".exe"))) ++
  (["StataSE-64", "StataMP-64", "Stata-64", "StataBE-64"].map
    (fun cmd => nt_path_join (nt_path_join programFiles "Stata17") (cmd ++ ".exe")))

/-- `determine_stata_command`: user table, then Mac paths, then Windows
paths (quoted), then PATH probes, then the `"stata-se"` fallback. -/
def determine_stata_command (env : SysEnv) : String :=
  match user_stata_commands.lookup env.username with
  | some c => c
  | none =>
    match mac_specific_paths.find? env.pathExists with
    | some p => p
    | none =>
      match (if env.osIsWindows then (windows_stata_paths env.programFiles).find? env.pathExists else none) with
      | some p => "\"" ++ p ++ "\""
      | none =>
        match possible_commands.find? env.cmdFound with
        | some c => c
        | none => "stata-se"

/-!
### The runner functions
-/

/-- Python's substring containment `needle in haystack`. -/
def containsSub (needle : List Char) : List Char → Bool
  | [] => needle.isEmpty
  | c :: rest => needle.isPrefixOf (c :: rest) || containsSub needle rest

/-- The triple `(success, output, test_results)` a runner function
returns; also the per-script entry of the results dict of
`run_all_tests` (whose extra `elapsed_time` field no consumer of the
aggregate reads). -/
structure RunOutcome where
  success : Bool
  output : String
  test_results : List ResultRecord
deriving DecidableEq

/-- The behaviour of the external world during one `run_python_test`
call: whether `subprocess.run` raises (message of the exception), and
otherwise the return code and captured streams of the child. -/
structure ProcEnv where
  runRaises : Option String
  returncode : Int
  stdout : String
  stderr : String

/-- `run_python_test` (lines 164-188): the whole body after the spawn
sits in `try/except Exception`, so the function always returns a triple.
A raised exception gives `(False, str(e), [])`; a nonzero return code
gives `(False, stderr, [])`; otherwise the stdout is scanned by
`extract_test_results`. -/
def run_python_test_model (env : ProcEnv) : RunOutcome :=
  match env.runRaises with
  | some e => { success := false, output := e, test_results := [] }
  | none =>
    if env.returncode ≠ 0 then
      { success := false, output := env.stderr, test_results := [] }
    else
      { success := true, output := env.stdout, test_results := extract_test_results env.stdout }

/-- The behaviour of the external world during one `run_stata_test`
call: whether writing the temp wrapper raises (the write happens before
the `try` block), whether `subprocess.run` raises, and otherwise the
child's return code and streams. `sys` is the state consulted by the
inner `determine_stata_command` call. -/
structure StataEnv where
  sys : SysEnv
  writeRaises : Option String
  runRaises : Option String
  returncode : Int
  stdout : String
  stderr : String

/-- What one `run_stata_test` call did: its result (`Except.error`
meaning an exception propagated to the caller), the temp wrapper path it
used, the `subprocess.run` call it made (if it reached it), and whether
the temp wrapper file still exists when the call ends. -/
structure StataRun where
  result : Except String RunOutcome
  temp_script : String
  call : Option SubprocessCall
  tempRemains : Bool

/-- `run_stata_test` (lines 190-254): the temp wrapper
`os.path.join(root_dir, "temp_wrapper.do")` is written before the
`try` block, so a failing write propagates; inside the `try`, a raised
exception is converted to `(False, str(e), [])` after removing the
wrapper, and both return-code branches remove the wrapper first. The
structured extraction runs only when the script path contains
`edge_case_tests.do`. -/
def run_stata_test_model (env : StataEnv) (script_path root_dir : String) : StataRun :=
  let temp_script := os_path_join root_dir "temp_wrapper.do"
  match env.writeRaises with
  | some e =>
    { result := Except.error e, temp_script := temp_script, call := none, tempRemains := false }
  | none =>
    let stata_cmd := determine_stata_command env.sys
    let call := run_stata_test_call stata_cmd temp_script
    match env.runRaises with
    | some e =>
      { result := Except.ok { success := false, output := e, test_results := [] },
        temp_script := temp_script, call := some call, tempRemains := false }
    | none =>
      if env.returncode ≠ 0 then
        { result := Except.ok { success := false, output := env.stderr, test_results := [] },
          temp_script := temp_script, call := some call, tempRemains := false }
      else
        { result := Except.ok
            { success := true, output := env.stdout,
              test_results :=
                if containsSub "edge_case_tests.do".data script_path.data then
                  edge_case_extract env.stdout
                else [] },
          temp_script := temp_script, call := some call, tempRemains := false }

/-- The temp wrapper path `run_stata_test` uses for a given check: a
fixed name under the root directory, independent of the script being
run. -/
def run_stata_temp_script (script_path root_dir : String) : String :=
  let _ := script_path
  os_path_join root_dir "temp_wrapper.do"

/-- The temp script path `DataIntegrityTester.run_stata_check`
(data_integrity_tests.py line 72) uses: likewise a fixed name under the
root directory. -/
def run_stata_check_temp_script (root_dir : String) : String :=
  os_path_join root_dir "temp_check_script.do"

/-!
### The aggregator `collect_test_results` (run_tests.py lines 256-286)

The per-script results dict is an insertion-ordered association list.
The Excel backup files found by the two `glob` calls are passed in as a
list of parse outcomes (`none` for a file whose read raises, which the
per-file `try/except` skips).
-/

/-- `collect_test_results`: concatenate the nonempty per-script record
lists; only when that yields nothing and Excel backup files exist, read
those instead. No record is synthesized for a failed script. -/
def collect_test_results (excel_files : List (Option (List ResultRecord)))
    (all_script_results : List (String × RunOutcome)) : List ResultRecord :=
  let combined := all_script_results.foldl
    (fun acc p => if p.2.test_results.isEmpty then acc else acc ++ p.2.test_results) []
  if !excel_files.isEmpty && combined.isEmpty then
    combined ++ (excel_files.filterMap id).flatten
  else combined

/-- Total number of records extracted from the individual script runs. -/
def sumExtractedRecords (all_script_results : List (String × RunOutcome)) : Nat :=
  (all_script_results.map (fun p => p.2.test_results.length)).sum

/-- Number of script runs that failed to run (`success = false`,
the spec's `ranOk=false`). -/
def countFailedOutcomes (all_script_results : List (String × RunOutcome)) : Nat :=
  (all_script_results.filter (fun p => !p.2.success)).length

/-!
### The reporter `generate_report` (run_tests.py lines 288-410)

The summary arithmetic is modelled over `ℚ` (Python computes the pass
rate with exact small-integer division here, displayed to one decimal).
The filesystem actions are returned as an explicit trace.
-/

/-- The summary block of the report (lines 303-310). -/
structure ReportSummary where
  total_tests : Nat
  pass_count : Nat
  fail_count : Nat
  error_count : Nat
  warning_count : Nat
  pass_rate : ℚ
deriving DecidableEq

/-- The summary statistics `generate_report` computes from the records. -/
def report_summary (results : List ResultRecord) : ReportSummary :=
  let total := results.length
  let pass := (results.filter (fun r => r.result == "PASS")).length
  { total_tests := total
    pass_count := pass
    fail_count := (results.filter (fun r => r.result == "FAIL")).length
    error_count := (results.filter (fun r => r.result == "ERROR")).length
    warning_count := (results.filter (fun r => r.result == "WARNING" || r.result == "PARTIAL")).length
    pass_rate := if total > 0 then ((pass : ℚ) / (total : ℚ)) * 100 else 0 }

/-- One filesystem action of the reporter. -/
inductive FsOp where
  | mkdirs (p : String)
  | writeFile (p : String)
  | rename (src dst : String)
deriving DecidableEq

/-- `os.path.join(root_dir, "tests", "reports")`. -/
def reports_dir (root_dir : String) : String :=
  os_path_join (os_path_join root_dir "tests") "reports"

/-- The HTML report path `test_report_{timestamp}.html` (line 399). -/
def report_file_path (root_dir timestamp : String) : String :=
  os_path_join (reports_dir root_dir) ("test_report_" ++ timestamp ++ ".html")

/-- The Excel export path `combined_results_{timestamp}.xlsx` (line 406). -/
def excel_file_path (root_dir timestamp : String) : String :=
  os_path_join (reports_dir root_dir) ("combined_results_" ++ timestamp ++ ".xlsx")

/-- The filesystem actions `generate_report` performs: nothing when the
record list is empty (it returns early), otherwise create the reports
directory and write both artifacts directly to their final paths. -/
def generate_report_fsops (results : List ResultRecord) (root_dir timestamp : String) : List FsOp :=
  if results.isEmpty then []
  else
    [FsOp.mkdirs (reports_dir root_dir),
     FsOp.writeFile (report_file_path root_dir timestamp),
     FsOp.writeFile (excel_file_path root_dir timestamp)]

/-- The return value of `generate_report`: `(None, None)` — here `none` —
when the record list is empty, else the two artifact paths. -/
def generate_report_result (results : List ResultRecord) (root_dir timestamp : String) :
    Option (String × String) :=
  if results.isEmpty then none
  else some (report_file_path root_dir timestamp, excel_file_path root_dir timestamp)

/-!
## Helper lemmas
-/

/-- A successful marker match returns one of the five alternation tokens. -/
theorem tryMarker_token_mem {cs name rem : List Char} {t : String}
    (h : tryMarker cs = some (name, t, rem)) : t ∈ statusTokens := by
  unfold tryMarker at h
  split at h
  · exact Option.noConfusion h
  · split at h
    · split at h
      · exact Option.noConfusion h
      · split at h
        · rename_i ht
          injection h with h
          injection h with h1 h
          injection h with h2 h3
          exact h2 ▸ List.mem_of_find?_eq_some ht
        · exact Option.noConfusion h
    · exact Option.noConfusion h

/-- Every record the marker scan produces carries one of the five tokens. -/
theorem scanFuel_result_mem (full : List Char) :
    ∀ (fuel : Nat) (cs : List Char) (r : ResultRecord),
      r ∈ scanFuel full fuel cs → r.result ∈ statusTokens := by
  intro fuel
  induction fuel with
  | zero => intro cs r h; simp [scanFuel] at h
  | succ f ih =>
    intro cs r h
    match cs with
    | [] => simp [scanFuel] at h
    | c :: rest =>
      rw [scanFuel] at h
      cases htm : tryMarker (c :: rest) with
      | none =>
        rw [htm] at h
        exact ih rest r h
      | some x =>
        obtain ⟨name, t, remaining⟩ := x
        rw [htm] at h
        rcases List.mem_cons.mp h with hhead | htail
        · subst hhead
          exact tryMarker_token_mem htm
        · exact ih remaining r htail

/-!
## Claims about the extractor
-/

/-- C1 counterexample: the input `"mytest: ERROR\n"` contains one
`<name>: <STATUS>` marker whose status token is `ERROR` (one of the six
recognized tokens of the wire format), yet `extract_test_results`
produces no record for it: the alternation in its pattern lacks
`ERROR`. -/
theorem C1_counterexample_error_marker_dropped :
    extract_test_results "mytest: ERROR\n" = [] := rfl

/-- C1 (amended): `extract_test_results` recognizes exactly the five
status tokens `PASS`, `FAIL`, `WARNING`, `PARTIAL`, `INCONCLUSIVE` —
not `ERROR`: every record it produces carries one of these five tokens,
and for each of the five, a `<name>: <STATUS>` marker line yields one
record with that status. -/
theorem C1_extract_recognizes_five_tokens :
    (∀ (output_text : String) (r : ResultRecord),
        r ∈ extract_test_results output_text → r.result ∈ statusTokens) ∧
    (∀ t : String, t ∈ statusTokens →
        extract_test_results ("mytest: " ++ t) =
          [{ test_category := "Data Integrity", test_name := "mytest",
             result := t, notes := "" }]) := by
  constructor
  · intro output_text r h
    exact scanFuel_result_mem _ _ _ _ h
  · intro t ht
    fin_cases ht <;> rfl

/-- Witness for C1: at the concrete inputs `"t: FAIL"` and
`"mytest: WARNING"` the two parts of the theorem apply with their
hypotheses discharged by evaluation. -/
theorem C1_extract_recognizes_five_tokens_witness :
    ({ test_category := "Data Integrity", test_name := "t", result := "FAIL",
       notes := "" } : ResultRecord).result ∈ statusTokens ∧
    extract_test_results ("mytest: " ++ "WARNING") =
      [{ test_category := "Data Integrity", test_name := "mytest",
         result := "WARNING", notes := "" }] :=
  ⟨C1_extract_recognizes_five_tokens.1 "t: FAIL" _ (by decide),
   C1_extract_recognizes_five_tokens.2 "WARNING" (by decide)⟩

/-- C3: for every input text the extractor is total (it is a plain
function into lists, so it cannot raise) and every record in its output
carries one of the six enumerated status values. -/
theorem C3_extract_status_in_six (output_text : String) (r : ResultRecord)
    (h : r ∈ extract_test_results output_text) : r.result ∈ specStatusTokens := by
  have h5 := scanFuel_result_mem _ _ _ _ h
  simp only [statusTokens, List.mem_cons, List.mem_singleton, List.not_mem_nil, or_false] at h5
  rcases h5 with h5 | h5 | h5 | h5 | h5 <;> rw [h5] <;> decide

/-- Witness for C3: the record extracted from `"t: PASS"` has its status
among the six enumerated values. -/
theorem C3_extract_status_in_six_witness :
    ({ test_category := "Data Integrity", test_name := "t", result := "PASS",
       notes := "" } : ResultRecord).result ∈ specStatusTokens :=
  C3_extract_status_in_six "t: PASS" _ (by decide)

/-- C9: the extractor is a pure function of its input text — in the
embedding it is a function with no state parameter, so two runs on the
same text are definitionally the same list. -/
theorem C9_extract_deterministic (output_text : String) :
    extract_test_results output_text = extract_test_results output_text := rfl

/-!
## Claims about the aggregator
-/

/-- The accumulating fold of `collect_test_results` is plain
concatenation: skipping an empty list and appending it coincide. -/
theorem collect_foldl_eq_flatten (all_script_results : List (String × RunOutcome)) :
    ∀ acc : List ResultRecord,
      all_script_results.foldl
        (fun acc p => if p.2.test_results.isEmpty then acc else acc ++ p.2.test_results) acc
      = acc ++ (all_script_results.map (fun p => p.2.test_results)).flatten := by
  induction all_script_results with
  | nil => intro acc; simp
  | cons p rest ih =>
    intro acc
    rw [List.foldl_cons]
    by_cases hp : p.2.test_results.isEmpty
    · rw [if_pos hp, ih, List.map_cons, List.flatten_cons, List.isEmpty_iff.mp hp,
        List.nil_append]
    · rw [if_neg hp, ih, List.map_cons, List.flatten_cons, List.append_assoc]

/-- C2 counterexample: a batch consisting of one script run that failed
to run (`success = false`, stderr captured in its output) and no Excel
backup files yields an empty aggregate, while the claimed invariant
demands `0 + 1 = 1` records: the failed outcome is silently dropped and
no synthetic ERROR record is created. -/
theorem C2_counterexample_failed_outcome_dropped :
    (collect_test_results []
        [("data_integrity_tests.py",
          { success := false, output := "Traceback: boom", test_results := [] })]).length
      ≠ sumExtractedRecords
          [("data_integrity_tests.py",
            { success := false, output := "Traceback: boom", test_results := [] })]
        + countFailedOutcomes
            [("data_integrity_tests.py",
              { success := false, output := "Traceback: boom", test_results := [] })] := by
  decide

/-- C2 (amended): with no Excel backup files present, the aggregate is
exactly the concatenation of the per-script record lists, so its length
is the sum of the records extracted from each input — outcomes with
`ranOk=false` contribute nothing and are dropped from the aggregate. -/
theorem C2_collect_concatenates_extracted (all_script_results : List (String × RunOutcome)) :
    collect_test_results [] all_script_results
      = (all_script_results.map (fun p => p.2.test_results)).flatten ∧
    (collect_test_results [] all_script_results).length
      = sumExtractedRecords all_script_results := by
  have hc : collect_test_results [] all_script_results
      = (all_script_results.map (fun p => p.2.test_results)).flatten := by
    unfold collect_test_results
    dsimp only
    rw [collect_foldl_eq_flatten, List.nil_append]
    simp
  refine ⟨hc, ?_⟩
  rw [hc]
  unfold sumExtractedRecords
  rw [List.length_flatten, List.map_map]
  rfl

/-!
## Claims about the runner
-/

/-- C4 counterexample: the subprocess invocations the runner makes carry
no timeout at all (`timeout=None`, the `subprocess.run` default), so no
configured per-check timeout exists after which a long-running check
would be terminated. -/
theorem C4_counterexample_no_timeout_configured :
    (run_python_test_call "python3" "5_tests/test_framework.py" "/project").timeout = none ∧
    (run_stata_test_call "stata-mp" "/project/temp_wrapper.do").timeout = none :=
  ⟨rfl, rfl⟩

/-- C4 (amended): both runner functions invoke `subprocess.run` without
a timeout, for every executable, script and root directory: the runner
blocks until the child exits on its own, and a check exceeding any
intended time budget is never forcibly terminated. -/
theorem C4_runner_calls_have_no_timeout
    (python_executable script_path root_dir stata_cmd temp_script : String) :
    (run_python_test_call python_executable script_path root_dir).timeout = none ∧
    (run_stata_test_call stata_cmd temp_script).timeout = none :=
  ⟨rfl, rfl⟩

/-- A concrete system environment for witnesses: unknown user, POSIX,
nothing installed, nothing on the PATH. -/
def probeSysEnv : SysEnv :=
  { username := "nobody", osIsWindows := false, programFiles := "C:\\Program Files",
    pathExists := fun _ => false, cmdFound := fun _ => false }

/-- C5 counterexample: with an unwritable root directory the wrapper
write raises before the `try` block of `run_stata_test` begins, and the
exception propagates to the caller instead of becoming a returned
`(False, message, [])` value. -/
theorem C5_counterexample_write_failure_propagates :
    (run_stata_test_model
        { sys := probeSysEnv,
          writeRaises := some "PermissionError: [Errno 13] Permission denied",
          runRaises := none, returncode := 0, stdout := "", stderr := "" }
        "edge_case_tests.do" "/project").result
      = Except.error "PermissionError: [Errno 13] Permission denied" := rfl

/-- C5 (amended): `run_python_test` converts every error into a returned
value (a raised exception becomes `(False, str(e), [])`), and
`run_stata_test` does the same for every error raised after the temp
wrapper has been written — only a failure of the wrapper write itself,
which happens before its `try` block, propagates. -/
theorem C5_runner_errors_become_data :
    (∀ (penv : ProcEnv) (e : String), penv.runRaises = some e →
        run_python_test_model penv
          = { success := false, output := e, test_results := [] }) ∧
    (∀ (senv : StataEnv) (script_path root_dir : String), senv.writeRaises = none →
        ∃ o, (run_stata_test_model senv script_path root_dir).result = Except.ok o) := by
  constructor
  · intro penv e h
    unfold run_python_test_model
    rw [h]
  · intro senv script_path root_dir h
    unfold run_stata_test_model
    rw [h]
    cases hr : senv.runRaises with
    | some e => exact ⟨_, rfl⟩
    | none =>
      by_cases hrc : senv.returncode ≠ 0
      · simp only [if_pos hrc]
        exact ⟨_, rfl⟩
      · simp only [if_neg hrc]
        exact ⟨_, rfl⟩

/-- Witness for C5: both parts applied at concrete environments — a
raising `subprocess.run` for the Python runner, and a raising
`subprocess.run` after a successful wrapper write for the Stata
runner. -/
theorem C5_runner_errors_become_data_witness :
    run_python_test_model
        { runRaises := some "FileNotFoundError: python3", returncode := 0,
          stdout := "", stderr := "" }
      = { success := false, output := "FileNotFoundError: python3", test_results := [] } ∧
    ∃ o, (run_stata_test_model
            { sys := probeSysEnv, writeRaises := none,
              runRaises := some "OSError: stata missing", returncode := 0,
              stdout := "", stderr := "" }
            "edge_case_tests.do" "/project").result = Except.ok o :=
  ⟨C5_runner_errors_become_data.1 _ "FileNotFoundError: python3" rfl,
   C5_runner_errors_become_data.2 _ "edge_case_tests.do" "/project" rfl⟩

/-- C7 counterexample: two different checks run against the same root
directory use the very same wrapper filename `temp_wrapper.do` — the
name is fixed, not unique, so overlapping runs clobber each other. -/
theorem C7_counterexample_fixed_wrapper_name :
    run_stata_temp_script "test_framework.py" "/project"
      = run_stata_temp_script "edge_case_tests.do" "/project" ∧
    ("test_framework.py" : String) ≠ "edge_case_tests.do" :=
  ⟨rfl, by decide⟩

/-- C7 (amended): the wrapper path is the fixed, check-independent
`root_dir/temp_wrapper.do` (so overlapping runs collide); the wrapper
file never survives a `run_stata_test` call — when the write succeeded
it is removed on the success, nonzero-exit and in-`try` exception paths,
and when the write raised it was never created. -/
theorem C7_wrapper_fixed_name_and_cleanup (env : StataEnv)
    (script_path other_script root_dir : String) :
    run_stata_temp_script script_path root_dir
      = run_stata_temp_script other_script root_dir ∧
    (run_stata_test_model env script_path root_dir).temp_script
      = run_stata_temp_script script_path root_dir ∧
    (run_stata_test_model env script_path root_dir).tempRemains = false := by
  refine ⟨rfl, ?_, ?_⟩ <;>
    · unfold run_stata_test_model
      cases env.writeRaises with
      | some e => rfl
      | none =>
        cases env.runRaises with
        | some e => rfl
        | none =>
          by_cases hrc : env.returncode ≠ 0
          · simp only [if_pos hrc]
            all_goals rfl
          · simp only [if_neg hrc]
            all_goals rfl

/-!
## Claims about the reporter
-/

/-- C6 counterexample: given zero records, `generate_report` returns the
`(None, None)` early-exit and performs no filesystem action at all — no
report file stating "Total Tests: 0" is produced. -/
theorem C6_counterexample_empty_produces_no_report :
    generate_report_result [] "/project" "20250301_120000" = none ∧
    generate_report_fsops [] "/project" "20250301_120000" = [] :=
  ⟨rfl, rfl⟩

/-- C6 (amended): given zero records `generate_report` logs an error and
returns `(None, None)` without writing any file; for every nonempty
record list it returns the two artifact paths and its displayed pass
rate equals `passCount / totalCount * 100`. -/
theorem C6_report_pass_rate (results : List ResultRecord) (root_dir timestamp : String) :
    generate_report_result [] root_dir timestamp = none ∧
    (results ≠ [] →
      generate_report_result results root_dir timestamp
        = some (report_file_path root_dir timestamp, excel_file_path root_dir timestamp) ∧
      (report_summary results).pass_rate
        = ((report_summary results).pass_count : ℚ)
            / ((report_summary results).total_tests : ℚ) * 100) := by
  refine ⟨rfl, fun h => ⟨?_, ?_⟩⟩
  · unfold generate_report_result
    rw [if_neg (by simpa [List.isEmpty_iff] using h)]
  · have hpos : 0 < results.length := List.length_pos.mpr h
    unfold report_summary
    simp only [if_pos hpos]

/-- Witness for C6: the theorem applied to a single-record list. -/
theorem C6_report_pass_rate_witness :
    generate_report_result
        [{ test_category := "Data Integrity", test_name := "t", result := "PASS",
           notes := "" }] "/project" "20250301_120000"
      = some (report_file_path "/project" "20250301_120000",
              excel_file_path "/project" "20250301_120000") ∧
    (report_summary
        [{ test_category := "Data Integrity", test_name := "t", result := "PASS",
           notes := "" }]).pass_rate
      = ((report_summary
            [{ test_category := "Data Integrity", test_name := "t", result := "PASS",
               notes := "" }]).pass_count : ℚ)
          / ((report_summary
               [{ test_category := "Data Integrity", test_name := "t", result := "PASS",
                  notes := "" }]).total_tests : ℚ) * 100 :=
  (C6_report_pass_rate
      [{ test_category := "Data Integrity", test_name := "t", result := "PASS",
         notes := "" }] "/project" "20250301_120000").2 (by decide)

/-- C8 counterexample: on a concrete nonempty record list the reporter's
filesystem trace is exactly a directory creation followed by two direct
writes to the final artifact paths — there is no rename step, so the
claimed temporary-path-then-rename protocol does not happen. -/
theorem C8_counterexample_no_rename_step :
    generate_report_fsops
        [{ test_category := "Data Integrity", test_name := "t", result := "PASS",
           notes := "" }] "/project" "20250301_120000"
      = [FsOp.mkdirs "/project/tests/reports",
         FsOp.writeFile "/project/tests/reports/test_report_20250301_120000.html",
         FsOp.writeFile "/project/tests/reports/combined_results_20250301_120000.xlsx"] := by
  decide

/-- Whether a filesystem action is a rename. -/
def FsOp.isRename : FsOp → Bool
  | FsOp.rename _ _ => true
  | _ => false

/-- C8 (amended): the reporter writes both artifacts directly to their
final paths; its trace never contains a rename, so while a write failure
propagates to the caller, it can leave a partial report file behind. -/
theorem C8_report_written_directly (results : List ResultRecord) (root_dir timestamp : String) :
    (generate_report_fsops results root_dir timestamp).all (fun op => ! op.isRename) = true ∧
    (results ≠ [] →
      FsOp.writeFile (report_file_path root_dir timestamp)
        ∈ generate_report_fsops results root_dir timestamp) := by
  unfold generate_report_fsops
  by_cases h : results.isEmpty
  · rw [if_pos h]
    refine ⟨rfl, fun hne => ?_⟩
    exact absurd (List.isEmpty_iff.mp h) hne
  · rw [if_neg h]
    exact ⟨rfl, fun _ => by simp⟩

/-- Witness for C8: the theorem applied to a single-record list. -/
theorem C8_report_written_directly_witness :
    FsOp.writeFile (report_file_path "/project" "20250301_120000")
      ∈ generate_report_fsops
          [{ test_category := "Data Integrity", test_name := "t", result := "PASS",
             notes := "" }] "/project" "20250301_120000" :=
  (C8_report_written_directly
      [{ test_category := "Data Integrity", test_name := "t", result := "PASS",
         notes := "" }] "/project" "20250301_120000").2 (by decide)

/-!
## Claims about command discovery
-/

/-- A hit in the user command table is a nonempty command string. -/
theorem user_stata_commands_lookup_ne_empty {u c : String}
    (h : user_stata_commands.lookup u = some c) : c ≠ "" := by
  simp only [user_stata_commands, List.lookup] at h
  split at h
  · injection h with h
    subst h
    decide
  · split at h
    · injection h with h
      subst h
      decide
    · exact Option.noConfusion h

/-- Every probed Windows path yields a quoted, hence nonempty, command. -/
theorem quoted_ne_empty (p : String) : "\"" ++ p ++ "\"" ≠ "" := by
  intro h
  have hlen := congrArg String.length h
  have h1 : ("\"" : String).length = 1 := rfl
  have h0 : ("" : String).length = 0 := rfl
  rw [String.length_append, String.length_append, h1, h0] at hlen
  omega

/-- C10: `determine_stata_command` is a total function (it cannot raise:
its PATH probes swallow every exception via the bare `except: pass`),
always returns a nonempty command string, and when the user has no
configured entry, none of the probed Mac or Windows installation paths
exist, and no PATH lookup succeeds, it returns the fallback
`"stata-se"`. -/
theorem C10_determine_stata_command_total (env : SysEnv) :
    determine_stata_command env ≠ "" ∧
    (user_stata_commands.lookup env.username = none →
     (∀ p ∈ mac_specific_paths, env.pathExists p = false) →
     (∀ p ∈ windows_stata_paths env.programFiles, env.pathExists p = false) →
     (∀ c ∈ possible_commands, env.cmdFound c = false) →
     determine_stata_command env = "stata-se") := by
  constructor
  · unfold determine_stata_command
    cases hu : user_stata_commands.lookup env.username with
    | some c => exact user_stata_commands_lookup_ne_empty hu
    | none =>
      dsimp only
      cases hm : mac_specific_paths.find? env.pathExists with
      | some p =>
        dsimp only
        have hp := List.mem_of_find?_eq_some hm
        fin_cases hp <;> decide
      | none =>
        dsimp only
        cases hw : (if env.osIsWindows then
            (windows_stata_paths env.programFiles).find? env.pathExists else none) with
        | some p => exact quoted_ne_empty p
        | none =>
          dsimp only
          cases hc : possible_commands.find? env.cmdFound with
          | some c =>
            dsimp only
            have hcm := List.mem_of_find?_eq_some hc
            fin_cases hcm <;> decide
          | none => decide
  · intro hu hmac hwin hcmd
    have hm : mac_specific_paths.find? env.pathExists = none :=
      List.find?_eq_none.mpr (fun p hp => by simp [hmac p hp])
    have hw : (windows_stata_paths env.programFiles).find? env.pathExists = none :=
      List.find?_eq_none.mpr (fun p hp => by simp [hwin p hp])
    have hc : possible_commands.find? env.cmdFound = none :=
      List.find?_eq_none.mpr (fun c hcm => by simp [hcmd c hcm])
    unfold determine_stata_command
    rw [hu, hm, hc]
    cases env.osIsWindows <;> simp [hw]

/-- Witness for C10: in an environment with an unknown user, no existing
installation path and an empty PATH, the command is nonempty and equals
the fallback `"stata-se"`. -/
theorem C10_determine_stata_command_total_witness :
    determine_stata_command probeSysEnv ≠ "" ∧
    determine_stata_command probeSysEnv = "stata-se" :=
  ⟨(C10_determine_stata_command_total probeSysEnv).1,
   (C10_determine_stata_command_total probeSysEnv).2 rfl
     (fun _ _ => rfl) (fun _ _ => rfl) (fun _ _ => rfl)⟩
